import Mathlib

/-!
Shallow embedding of the Local Shop Pro backend (src/backend/server.py).

Modelling conventions:
* Python floats (price, cost_price, margin) are modelled as exact rationals
  `ℚ`; Python ints (stock_quantity, low_stock_threshold) as `ℤ`;
  timestamps (`datetime.now()`) as abstract `ℕ` instants supplied by the
  caller; string ids and uuids as `String`.
* Python `round(x, 2)` is modelled by `roundTo2`, round-half-to-even at two
  decimal places (Python 3 banker's rounding).
* The MongoDB collections become two lists inside a `DB` state record; a
  handler that reads `current_merchant` is modelled as taking the
  authenticated merchant id as an argument (the JWT machinery is an
  external collaborator and is not modelled).
* `find_one(filter)` is the first list element satisfying the filter;
  `update_one(filter, set)` rewrites the first matching element;
  `insert_one` appends.
* A Mongo `$regex` search with `$options: "i"` is modelled as
  case-insensitive substring containment (the handlers pass the raw user
  string as the pattern; claims under study do not depend on regex
  metacharacters).
* HTTP error responses are modelled by `ApiError`.
-/

/-- Error outcomes surfaced by the handlers: `notFound` is HTTP 404
("Produit introuvable"), `duplicate` is the HTTP 400 duplicate-email
rejection ("Email déjà utilisé"), `forbidden` (HTTP 403) is included so
that "never answers Forbidden" is statable — no handler in server.py ever
produces it — `validation` stands for a ValidationError rejection, and
`internal` is the HTTP 500 a handler's except-clause produces when the
body raises (in particular the ZeroDivisionError of the margin
computation). -/
inductive ApiError where
  | notFound
  | forbidden
  | duplicate
  | validation
  | internal
deriving DecidableEq

/-- Floor of a rational as an integer, computed by floor division of the
numerator by the denominator (kernel-computable). -/
def ratFloor (q : ℚ) : ℤ := Int.fdiv q.num (q.den : ℤ)

/-- Round-half-to-even to the nearest integer, the tie-breaking rule of
Python 3 `round`. -/
def roundHalfEven (q : ℚ) : ℤ :=
  let f := ratFloor q
  let r := q - (f : ℚ)
  if r < 1 / 2 then f
  else if 1 / 2 < r then f + 1
  else if f % 2 = 0 then f else f + 1

/-- Model of Python `round(x, 2)`: round to two decimal places. -/
def roundTo2 (q : ℚ) : ℚ := (roundHalfEven (q * 100) : ℚ) / 100

/-- Stored product document. Mirrors the pydantic `Product` model
(server.py lines 132-147) plus the derived `margin` key, which the
handlers add to the stored dict only when they compute one (`none` models
a document without the key, `datetime` fields are abstract instants). -/
structure Product where
  id : String
  merchant_id : String
  name : String
  barcode : Option String
  price : ℚ
  cost_price : Option ℚ
  stock_quantity : ℤ
  low_stock_threshold : ℤ
  category : String
  subcategory : Option String
  description : Option String
  supplier : Option String
  is_available : Bool
  created_at : ℕ
  updated_at : ℕ
  margin : Option ℚ
deriving DecidableEq

/-- Partial update body, mirroring the pydantic `ProductUpdate` model
(server.py lines 149-160): every field optional, `none` meaning "not
provided" (the handler drops `None` values before `$set`). -/
structure ProductUpdate where
  name : Option String := none
  barcode : Option String := none
  price : Option ℚ := none
  cost_price : Option ℚ := none
  stock_quantity : Option ℤ := none
  low_stock_threshold : Option ℤ := none
  category : Option String := none
  subcategory : Option String := none
  description : Option String := none
  supplier : Option String := none
  is_available : Option Bool := none
deriving DecidableEq

/-- Low-stock alert row, mirroring the pydantic `StockAlert` model
(server.py lines 162-166). -/
structure StockAlert where
  product_id : String
  name : String
  current_stock : ℤ
  threshold : ℤ
deriving DecidableEq

/-- Merchant postal location (server.py lines 98-104). -/
structure MerchantLocation where
  address : String
  city : String
  postal_code : String
  country : String
  latitude : Option ℚ
  longitude : Option ℚ
deriving DecidableEq

/-- Merchant business profile (server.py lines 106-112). -/
structure MerchantProfile where
  business_name : String
  business_type : String
  siret : Option String
  phone : Option String
  location : MerchantLocation
  description : Option String
deriving DecidableEq

/-- Registration request body (server.py lines 114-117). -/
structure MerchantRegistration where
  email : String
  password : String
  profile : MerchantProfile
deriving DecidableEq

/-- Stored merchant document (server.py lines 123-130). -/
structure Merchant where
  id : String
  email : String
  password_hash : String
  profile : MerchantProfile
  is_active : Bool
  created_at : ℕ
  updated_at : ℕ
deriving DecidableEq

/-- The persistent state: the `merchants` and `products` MongoDB
collections, as insertion-ordered lists of documents. -/
structure DB where
  merchants : List Merchant
  products : List Product
deriving DecidableEq

/-- The fixed category taxonomy `STANDARD_CATEGORIES`
(server.py lines 49-78). -/
def STANDARD_CATEGORIES : List String :=
  ["ALIMENTAIRE", "BOISSONS", "BOULANGERIE_PATISSERIE",
   "BOUCHERIE_CHARCUTERIE", "POISSONNERIE", "FRUITS_LEGUMES",
   "EPICERIE_FINE", "PRODUITS_BIO", "HYGIENE_BEAUTE",
   "PHARMACIE_PARAPHARMACIE", "TEXTILE_MODE", "CHAUSSURES_MAROQUINERIE",
   "BIJOUTERIE_HORLOGERIE", "ELECTRONIQUE_INFORMATIQUE",
   "TELEPHONIE_ACCESSOIRES", "MAISON_DECORATION", "BRICOLAGE_JARDINAGE",
   "SPORT_LOISIRS", "LIBRAIRIE_PAPETERIE", "JOUETS_PUERICULTURE",
   "ARTISANAT_ART", "FLEURS_PLANTES", "AUTOMOBILE_MOTO", "TABAC_PRESSE",
   "OPTIQUE", "AUTO_ENTREPRENEUR", "SERVICES", "AUTRE"]

/-- The subcategory map `SUBCATEGORIES` (server.py lines 80-95):
categories absent from this association list have no registered
subcategory set. -/
def SUBCATEGORIES : List (String × List String) :=
  [("ALIMENTAIRE", ["CONSERVES", "SURGELES", "FRAIS", "SEC", "EPICERIE_GENERALE"]),
   ("BOISSONS", ["ALCOOLISEES", "NON_ALCOOLISEES", "CHAUDES", "VINS_SPIRITUEUX"]),
   ("BOULANGERIE_PATISSERIE", ["PAIN", "VIENNOISERIES", "PATISSERIES", "GATEAUX_COMMANDE"]),
   ("BOUCHERIE_CHARCUTERIE", ["VIANDE_FRAICHE", "VOLAILLE", "CHARCUTERIE", "PLATS_PREPARES"]),
   ("POISSONNERIE", ["POISSONS_FRAIS", "FRUITS_MER", "POISSONS_FUMES", "CONSERVES_MER"]),
   ("FRUITS_LEGUMES", ["FRUITS_FRAIS", "LEGUMES_FRAIS", "FRUITS_SECS", "LEGUMES_PREPARES"]),
   ("HYGIENE_BEAUTE", ["HYGIENE_CORPORELLE", "COSMETIQUES", "PARFUMS", "SOINS_VISAGE"]),
   ("TEXTILE_MODE", ["VETEMENTS_HOMME", "VETEMENTS_FEMME", "VETEMENTS_ENFANT", "ACCESSOIRES_MODE"]),
   ("ELECTRONIQUE_INFORMATIQUE", ["ORDINATEURS", "SMARTPHONES", "AUDIO_VIDEO", "ACCESSOIRES_TECH"]),
   ("MAISON_DECORATION", ["MOBILIER", "DECORATION", "TEXTILE_MAISON", "LUMINAIRES"]),
   ("ARTISANAT_ART", ["FAIT_MAIN", "MATERIAUX_CREATION", "OUTILS_ARTISANAT", "OEUVRES_ART"]),
   ("SPORT_LOISIRS", ["EQUIPEMENT_SPORT", "VETEMENTS_SPORT", "JEUX_SOCIETE", "LOISIRS_CREATIFS"]),
   ("BIJOUTERIE_HORLOGERIE", ["BIJOUX", "MONTRES", "REPARATION", "SUR_MESURE"]),
   ("AUTOMOBILE_MOTO", ["PIECES_DETACHEES", "ACCESSOIRES", "ENTRETIEN", "EQUIPEMENT"])]

/-- Subcategory set registered for a category (empty list when the
category is absent from `SUBCATEGORIES`). -/
def subcategoriesFor (c : String) : List String :=
  ((SUBCATEGORIES.find? (fun e => e.1 == c)).map (·.2)).getD []

/-- Margin computed by `create_product` (server.py lines 335-342) on the
non-raising path. Python truthiness: `if product.cost_price and
product.price > product.cost_price` skips both an unset (`None`) and a
zero cost_price; the result is then stored only `if margin:`, i.e. when
it is nonzero. The one input region where the Python computation raises
instead of producing a value — price = 0 with a truthy cost_price below
it — is fenced off by `marginDivZero` in `create_product`, so the `ℚ`
division by zero inside this function is never reached from there. -/
def createMargin (price : ℚ) (cost : Option ℚ) : Option ℚ :=
  match cost with
  | none => none
  | some c =>
      if c ≠ 0 ∧ c < price then
        let m := (price - c) / price * 100
        if m ≠ 0 then some (roundTo2 m) else none
      else none

/-- Exact region where the margin computation of `create_product`
raises ZeroDivisionError: the truthiness guard fires (cost_price set,
nonzero, below price — forcing it negative here) while price is 0, so
`((price - cost) / price) * 100` divides by zero. The handler's
except-clause turns this into HTTP 500 and nothing is inserted. -/
def marginDivZero (price : ℚ) (cost : Option ℚ) : Bool :=
  match cost with
  | none => false
  | some c => decide (c ≠ 0 ∧ c < price ∧ price = 0)

/-- Document stored by a successful `create_product` call: the input
with `merchant_id` overwritten by the authenticated merchant's id and
the computed margin attached. The pydantic request model has no `margin`
field, so the incoming `margin` value is ignored (`product.dict()` never
contains one). -/
def createdDoc (mid : String) (inp : Product) : Product :=
  { inp with
    merchant_id := mid
    margin := createMargin inp.price inp.cost_price }

/-- Handler `create_product` (server.py lines 329-352): overwrites
`merchant_id` with the authenticated merchant's id, computes the margin
from the request's price and cost_price — raising through to an HTTP 500
with nothing stored when that computation divides by zero — and
otherwise inserts the resulting document, returning it with the new
state. -/
def create_product (db : DB) (mid : String) (inp : Product) :
    Except ApiError (Product × DB) :=
  if marginDivZero inp.price inp.cost_price then .error .internal
  else
    .ok (createdDoc mid inp,
      { db with products := db.products ++ [createdDoc mid inp] })

/-- Leading-segment test on character lists (helper for the
case-insensitive substring model of Mongo `$regex`). -/
def leadMatch : List Char → List Char → Bool
  | [], _ => true
  | _ :: _, [] => false
  | a :: as, b :: bs => a == b && leadMatch as bs

/-- Containment of `pat` as a contiguous run inside the second list. -/
def subSeq (pat : List Char) : List Char → Bool
  | [] => pat.isEmpty
  | c :: cs => leadMatch pat (c :: cs) || subSeq pat cs

/-- Case-insensitive substring containment: model of Mongo
`{"$regex": pat, "$options": "i"}` for a literal pattern. -/
def ciContains (hay pat : String) : Bool :=
  subSeq pat.toLower.toList hay.toLower.toList

/-- Search clause of `get_products` (server.py lines 364-369): `$or` of
case-insensitive matches against name, barcode and description; a Mongo
regex never matches a document whose field is missing (`None`). -/
def matchesSearch (s : String) (p : Product) : Bool :=
  ciContains p.name s
    || (match p.barcode with | some b => ciContains b s | none => false)
    || (match p.description with | some d => ciContains d s | none => false)

/-- Handler `get_products` (server.py lines 354-375): list the
authenticated merchant's products, optionally narrowed by exact category
and by the search clause. Python `if category:` / `if search:` treats the
empty string like an absent parameter, hence the `== ""` escapes. -/
def get_products (db : DB) (mid : String)
    (category : Option String) (search : Option String) : List Product :=
  db.products.filter (fun p =>
    p.merchant_id == mid
      && (match category with
          | none => true
          | some c => c == "" || p.category == c)
      && (match search with
          | none => true
          | some s => s == "" || matchesSearch s p))

/-- First product matching `find_one({"id": pid, "merchant_id": mid})`. -/
def findProduct (db : DB) (mid pid : String) : Option Product :=
  db.products.find? (fun p => p.id == pid && p.merchant_id == mid)

/-- Handler `get_product` (server.py lines 377-392): tenant-scoped point
lookup, HTTP 404 when no document of this merchant has the id. -/
def get_product (db : DB) (mid pid : String) : Except ApiError Product :=
  match findProduct db mid pid with
  | some p => .ok p
  | none => .error .notFound

/-- Margin recomputation of `update_product` (server.py lines 413-418):
`new_price` / `new_cost_price` are the effective values; the Python
truthiness test `if new_price and new_cost_price and new_price >
new_cost_price` demands both nonzero (and cost_price set). Returns `some`
exactly when the handler puts a `margin` key into `update_data`. -/
def updateMargin (np : ℚ) (nc : Option ℚ) : Option ℚ :=
  match nc with
  | none => none
  | some c =>
      if np ≠ 0 ∧ c ≠ 0 ∧ c < np then
        some (roundTo2 ((np - c) / np * 100))
      else none

/-- Option override: the `$set` document carries the new value when the
request provided one, otherwise the stored value is left in place. -/
def setOpt {α : Type} (new old : Option α) : Option α :=
  match new with
  | some v => some v
  | none => old

/-- Effect of `update_one({"$set": update_data})` on the matched document
(server.py lines 401-423): provided fields overwrite, absent fields stay,
`updated_at` is always set to now, and `margin` is overwritten only when
`updateMargin` fires (otherwise the previously stored margin — if any —
is left untouched). -/
def applyUpdate (p : Product) (u : ProductUpdate) (now : ℕ) : Product :=
  let np := u.price.getD p.price
  let nc := setOpt u.cost_price p.cost_price
  { id := p.id
    merchant_id := p.merchant_id
    name := u.name.getD p.name
    barcode := setOpt u.barcode p.barcode
    price := np
    cost_price := nc
    stock_quantity := u.stock_quantity.getD p.stock_quantity
    low_stock_threshold := u.low_stock_threshold.getD p.low_stock_threshold
    category := u.category.getD p.category
    subcategory := setOpt u.subcategory p.subcategory
    description := setOpt u.description p.description
    supplier := setOpt u.supplier p.supplier
    is_available := u.is_available.getD p.is_available
    created_at := p.created_at
    updated_at := now
    margin := setOpt (updateMargin np nc) p.margin }

/-- Rewrite the first product matching id and merchant (model of Mongo
`update_one`, which updates a single — the first — matching document). -/
def replaceFirst (l : List Product) (mid pid : String)
    (f : Product → Product) : List Product :=
  match l with
  | [] => []
  | q :: qs =>
      if q.id == pid && q.merchant_id == mid then f q :: qs
      else q :: replaceFirst qs mid pid f

/-- Handler `update_product` (server.py lines 394-439): 404 when the
tenant-scoped find fails; `modified_count == 0` — which, since the
update always sets fields, happens exactly when the rewritten document
equals the stored one — is also reported as 404; otherwise the first
matching document is rewritten and re-read (the re-read returns the
rewritten document because id and merchant_id are not updatable). -/
def update_product (db : DB) (mid pid : String) (u : ProductUpdate)
    (now : ℕ) : Except ApiError (Product × DB) :=
  match findProduct db mid pid with
  | none => .error .notFound
  | some p =>
      let p' := applyUpdate p u now
      if p' = p then .error .notFound
      else .ok (p', { db with
        products := replaceFirst db.products mid pid
          (fun q => applyUpdate q u now) })

/-- Handler `register_merchant` (server.py lines 244-283): reject with
HTTP 400 when any stored merchant (active or not) already has the email;
otherwise geocode the location (opaque best-effort provider, passed as a
function), hash the password (opaque, passed as a function), and insert a
fresh active merchant. Returns the outcome together with the resulting
state, so that "state unchanged" is expressible on the rejection path. -/
def register_merchant (db : DB) (reg : MerchantRegistration)
    (hashPw : String → String) (geocode : MerchantLocation → MerchantLocation)
    (newId : String) (now : ℕ) : Except ApiError String × DB :=
  if db.merchants.any (fun m => m.email == reg.email) then
    (.error .duplicate, db)
  else
    let m : Merchant :=
      { id := newId
        email := reg.email
        password_hash := hashPw reg.password
        profile := { reg.profile with
          location := geocode reg.profile.location }
        is_active := true
        created_at := now
        updated_at := now }
    (.ok newId, { db with merchants := db.merchants ++ [m] })

/-- Products of one merchant, in collection order. -/
def productsOf (db : DB) (mid : String) : List Product :=
  db.products.filter (fun p => p.merchant_id == mid)

/-- Low-stock predicate used by both analytics handlers:
`$expr: {"$lte": ["$stock_quantity", "$low_stock_threshold"]}` —
each product is compared against its own threshold. -/
def lowStock (p : Product) : Bool := p.stock_quantity ≤ p.low_stock_threshold

/-- Sum of price × stock_quantity (the `total_value` / per-category
`value` aggregation). -/
def stockValue (l : List Product) : ℚ :=
  (l.map (fun p => p.price * (p.stock_quantity : ℚ))).sum

/-- Sum of cost_price × stock_quantity: in Mongo `$multiply` with a null
`cost_price` yields null and `$sum` skips nulls, so a product with unset
cost_price contributes 0. -/
def costValue (l : List Product) : ℚ :=
  (l.map (fun p =>
    match p.cost_price with
    | some c => c * (p.stock_quantity : ℚ)
    | none => 0)).sum

/-- Distinct values in first-appearance order (model of the `$group`
key set; Mongo leaves group order unspecified, the claims under study do
not depend on it). -/
def dedupKeepFirst (l : List String) : List String :=
  l.foldl (fun acc c => if c ∈ acc then acc else acc ++ [c]) []

/-- Category breakdown `$group` (server.py lines 490-499): for each
category present, its document count and raw (unrounded) stock value. -/
def categoryBreakdown (l : List Product) : List (String × ℕ × ℚ) :=
  (dedupKeepFirst (l.map (·.category))).map (fun c =>
    let g := l.filter (fun p => p.category == c)
    (c, g.length, stockValue g))

/-- Dashboard aggregate returned by `get_dashboard_stats`
(server.py lines 501-512), merchant_info omitted (display data only). -/
structure DashboardStats where
  total_products : ℕ
  low_stock_alerts : ℕ
  total_stock_value : ℚ
  total_cost_value : ℚ
  estimated_profit : ℚ
  category_breakdown : List (String × ℕ × ℚ)
deriving DecidableEq

/-- Handler `get_dashboard_stats` (server.py lines 460-512): counts and
sums over the merchant's products; an empty aggregation result leaves the
totals at 0; the three monetary totals are rounded at the boundary while
the category breakdown is returned as produced by the pipeline. -/
def get_dashboard_stats (db : DB) (mid : String) : DashboardStats :=
  let l := productsOf db mid
  { total_products := l.length
    low_stock_alerts := (l.filter lowStock).length
    total_stock_value := roundTo2 (stockValue l)
    total_cost_value := roundTo2 (costValue l)
    estimated_profit := roundTo2 (stockValue l - costValue l)
    category_breakdown := categoryBreakdown l }

/-- Handler `get_low_stock_alerts` (server.py lines 517-542): one alert
per product of the merchant whose stock has fallen to or below its own
threshold, in collection order. -/
def get_low_stock_alerts (db : DB) (mid : String) : List StockAlert :=
  ((productsOf db mid).filter lowStock).map (fun p =>
    { product_id := p.id
      name := p.name
      current_stock := p.stock_quantity
      threshold := p.low_stock_threshold })

/-- Validity predicate asserted by claim C4 for the create input
(spec §4.1): non-empty name, positive price, non-negative quantities,
category in the taxonomy, subcategory in the category's registered set
when that set is non-empty. The taxonomy constants are from the source
(server.py lines 49-95); the predicate itself is the property under test
— the handler has no counterpart of it. -/
def specValid (p : Product) : Prop :=
  p.name ≠ "" ∧ 0 < p.price ∧ 0 ≤ p.stock_quantity ∧
  0 ≤ p.low_stock_threshold ∧ p.category ∈ STANDARD_CATEGORIES ∧
  (∀ s, p.subcategory = some s → subcategoriesFor p.category ≠ [] →
    s ∈ subcategoriesFor p.category)

/-- Consistency of a stored margin with the stored price and cost_price:
whenever the margin-recomputation condition of `update_product` fires on
the stored values themselves, the stored margin already equals the
recomputed one. Documents written by `create_product` satisfy it and
`applyUpdate` preserves it (`create_marginConsistent`,
`applyUpdate_marginConsistent` below). -/
def marginConsistent (p : Product) : Prop :=
  ∀ c, p.cost_price = some c → p.price ≠ 0 → c ≠ 0 → c < p.price →
    p.margin = some (roundTo2 ((p.price - c) / p.price * 100))

/-- Empty database, used by concrete instantiations. -/
def dbEmpty : DB := ⟨[], []⟩

/-- Sample product of tenant t1: price 10, cost 2, low on stock. -/
def prodSample : Product where
  id := "p1"
  merchant_id := "t1"
  name := "Pain de campagne"
  barcode := some "1234567890121"
  price := 10
  cost_price := some 2
  stock_quantity := 5
  low_stock_threshold := 10
  category := "BOULANGERIE_PATISSERIE"
  subcategory := some "PAIN"
  description := some "Pain artisanal"
  supplier := none
  is_available := true
  created_at := 0
  updated_at := 0
  margin := none

/-- Sample product of tenant t2, distinct id from `prodSample`. -/
def prodOther : Product where
  id := "p2"
  merchant_id := "t2"
  name := "Entrecote"
  barcode := none
  price := 25
  cost_price := none
  stock_quantity := 8
  low_stock_threshold := 3
  category := "BOUCHERIE_CHARCUTERIE"
  subcategory := none
  description := none
  supplier := none
  is_available := true
  created_at := 0
  updated_at := 0
  margin := none

/-- Catalog holding one product of each of the two tenants. -/
def dbTwoTenants : DB := ⟨[], [prodSample, prodOther]⟩

/-- Create input whose body claims to be owned by another tenant. -/
def prodForged : Product := { prodSample with merchant_id := "autre" }

/-- Create input hitting the ZeroDivisionError region: price 0 with a
truthy negative cost_price. -/
def prodZeroDiv : Product :=
  { prodSample with price := 0, cost_price := some (-2) }

/-- Create input with cost_price = 0 and price 10 > 0, the input on
which claim C2 predicts a margin of 100.0. -/
def prodCostZero : Product where
  id := "pz"
  merchant_id := "t1"
  name := "Echantillon gratuit"
  barcode := none
  price := 10
  cost_price := some 0
  stock_quantity := 1
  low_stock_threshold := 10
  category := "AUTRE"
  subcategory := none
  description := none
  supplier := none
  is_available := true
  created_at := 0
  updated_at := 0
  margin := none

/-- Create input violating every validation rule of claim C4: empty
name, negative price, negative stock, negative threshold, category
outside the taxonomy. -/
def badProduct : Product where
  id := "pb"
  merchant_id := "t1"
  name := ""
  barcode := none
  price := -1
  cost_price := none
  stock_quantity := -5
  low_stock_threshold := -1
  category := "PAS_UNE_CATEGORIE"
  subcategory := some "RIEN"
  description := none
  supplier := none
  is_available := true
  created_at := 0
  updated_at := 0
  margin := none

/-- Stored document with price 10, cost 5 and the margin 50.0 computed
from them, as `create_product` would have stored it. -/
def prodStale : Product where
  id := "p1"
  merchant_id := "t1"
  name := "Cafe"
  barcode := none
  price := 10
  cost_price := some 5
  stock_quantity := 20
  low_stock_threshold := 4
  category := "BOISSONS"
  subcategory := none
  description := none
  supplier := none
  is_available := true
  created_at := 0
  updated_at := 0
  margin := some 50

/-- Catalog holding only `prodStale`. -/
def dbStale : DB := ⟨[], [prodStale]⟩

/-- Update body that only lowers price to 4 (below the stored cost 5). -/
def updPrice4 : ProductUpdate := { price := some 4 }

/-- Stored document with no cost_price and no margin. -/
def prodNoCost : Product where
  id := "p1"
  merchant_id := "t1"
  name := "Savon"
  barcode := none
  price := 3
  cost_price := none
  stock_quantity := 50
  low_stock_threshold := 10
  category := "HYGIENE_BEAUTE"
  subcategory := none
  description := none
  supplier := none
  is_available := true
  created_at := 0
  updated_at := 0
  margin := none

/-- Catalog holding only `prodNoCost`. -/
def dbNoCost : DB := ⟨[], [prodNoCost]⟩

/-- Product whose stock value 1.234 is not expressible in 2 decimal
places. -/
def prodOddValue : Product where
  id := "p1"
  merchant_id := "t1"
  name := "Vis"
  barcode := none
  price := 617 / 500
  cost_price := none
  stock_quantity := 1
  low_stock_threshold := 0
  category := "AUTRE"
  subcategory := none
  description := none
  supplier := none
  is_available := true
  created_at := 0
  updated_at := 0
  margin := none

/-- Catalog holding only `prodOddValue`. -/
def dbOddValue : DB := ⟨[], [prodOddValue]⟩

/-- Sample merchant location. -/
def locSample : MerchantLocation where
  address := "123 rue de Rivoli"
  city := "Paris"
  postal_code := "75001"
  country := "France"
  latitude := none
  longitude := none

/-- Sample merchant profile. -/
def profileSample : MerchantProfile where
  business_name := "Test Commerce"
  business_type := "Boulangerie artisanale"
  siret := none
  phone := none
  location := locSample
  description := none

/-- Stored merchant owning the email merchant1@test.com. -/
def merchantA : Merchant where
  id := "t1"
  email := "merchant1@test.com"
  password_hash := "h"
  profile := profileSample
  is_active := true
  created_at := 0
  updated_at := 0

/-- Registration request re-using the already registered email. -/
def regDup : MerchantRegistration where
  email := "merchant1@test.com"
  password := "autre"
  profile := profileSample

/-- State holding the registered merchant `merchantA` and the products
of `dbTwoTenants`. -/
def dbWithMerchant : DB := ⟨[merchantA], [prodSample, prodOther]⟩

/-! Helper lemmas. -/

/-- Rounding fixes zero. -/
lemma roundTo2_zero : roundTo2 0 = 0 := by
  norm_num [roundTo2, roundHalfEven, ratFloor]

/-- The margin stored by `create_product` under the firing condition,
for a nonzero price. -/
lemma createMargin_pos (p c : ℚ) (hp : p ≠ 0) (hc : c ≠ 0) (hlt : c < p) :
    createMargin p (some c) = some (roundTo2 ((p - c) / p * 100)) := by
  have hm : (p - c) / p * 100 ≠ 0 :=
    mul_ne_zero (div_ne_zero (sub_ne_zero.mpr (ne_of_gt hlt)) hp) (by norm_num)
  simp only [createMargin, if_pos (And.intro hc hlt), if_pos hm]

/-- The stored-margin field is untouched by `applyUpdate` on a
margin-consistent document when price and cost_price are untouched. -/
lemma setOpt_updateMargin_self (p : Product) (hcons : marginConsistent p) :
    setOpt (updateMargin p.price p.cost_price) p.margin = p.margin := by
  cases hc : p.cost_price with
  | none => simp [updateMargin, setOpt]
  | some c =>
      by_cases h : p.price ≠ 0 ∧ c ≠ 0 ∧ c < p.price
      · have := hcons c hc h.1 h.2.1 h.2.2
        simp [updateMargin, setOpt, if_pos h, this]
      · simp [updateMargin, setOpt, if_neg h]

/-- An empty partial update only advances updated_at. -/
lemma applyUpdate_empty (p : Product) (now : ℕ) (hcons : marginConsistent p) :
    applyUpdate p {} now = { p with updated_at := now } := by
  have hm := setOpt_updateMargin_self p hcons
  simp [applyUpdate, Option.getD, setOpt] at hm ⊢
  simpa [setOpt] using hm

/-- A stock-only partial update changes stock_quantity and updated_at
and nothing else. -/
lemma applyUpdate_stock (p : Product) (now : ℕ) (s : ℤ)
    (hcons : marginConsistent p) :
    applyUpdate p { stock_quantity := some s } now =
      { p with stock_quantity := s, updated_at := now } := by
  have hm := setOpt_updateMargin_self p hcons
  simp [applyUpdate, Option.getD, setOpt] at hm ⊢
  simpa [setOpt] using hm

/-- The ZeroDivisionError path of `create_product` is live in the model:
at price 0 with a truthy negative cost_price the call fails with the
HTTP 500 outcome and no state is produced. -/
lemma create_price_zero_raises :
    create_product dbEmpty "t1" prodZeroDiv = .error .internal := by
  have hg : marginDivZero prodZeroDiv.price prodZeroDiv.cost_price = true := by
    norm_num [marginDivZero, prodZeroDiv]
  simp [create_product, hg]

/-- Documents written by `create_product` are margin-consistent. -/
lemma create_marginConsistent (mid : String) (inp : Product) :
    marginConsistent (createdDoc mid inp) := by
  intro c hc hp hc0 hlt
  simp only [createdDoc] at hc hp hlt ⊢
  exact hc ▸ createMargin_pos inp.price c hp hc0 (by simpa [hc] using hlt)

/-- Documents rewritten by `applyUpdate` are margin-consistent. -/
lemma applyUpdate_marginConsistent (p : Product) (u : ProductUpdate)
    (now : ℕ) : marginConsistent (applyUpdate p u now) := by
  intro c hc hp hc0 hlt
  simp only [applyUpdate] at hc hp hlt ⊢
  rw [hc]
  simp only [updateMargin, setOpt]
  rw [if_pos (And.intro hp (And.intro hc0 hlt))]

/-! Claim theorems. -/

/-- C10: whenever a create call inserts a product — every call except
the ZeroDivisionError 500, which inserts nothing — the tenant id of the
inserted document is the authenticated caller's id, whatever merchant_id
the request body carried, and the insert appends exactly that document. -/
theorem C10_create_forces_owner (db : DB) (mid : String) (inp : Product)
    (p : Product) (db' : DB)
    (hok : create_product db mid inp = .ok (p, db')) :
    p.merchant_id = mid ∧ db'.products = db.products ++ [p] := by
  cases hg : marginDivZero inp.price inp.cost_price with
  | true => simp [create_product, hg] at hok
  | false =>
      simp only [create_product, hg, Bool.false_eq_true, if_false,
        Except.ok.injEq, Prod.mk.injEq] at hok
      obtain ⟨h1, h2⟩ := hok
      subst h1
      exact ⟨rfl, congrArg DB.products h2.symm⟩

/-- C10 witness: a create call by merchant t1 whose body claims owner
"autre" stores the document under t1 and appends it. -/
theorem C10_create_forces_owner_witness :
    (createdDoc "t1" prodForged).merchant_id = "t1" ∧
      (DB.mk [] [createdDoc "t1" prodForged]).products =
        dbEmpty.products ++ [createdDoc "t1" prodForged] :=
  C10_create_forces_owner dbEmpty "t1" prodForged
    (createdDoc "t1" prodForged) (DB.mk [] [createdDoc "t1" prodForged]) rfl

/-- C1: a product of tenant t1 is never listed for a distinct tenant t2,
under any category or search narrowing, and the point lookup by t2 fails
with NotFound (never Forbidden), provided no product of another tenant
shares its id. -/
theorem C1_tenant_isolation (db : DB) (t1 t2 : String) (p : Product)
    (hown : p.merchant_id = t1) (hne : t1 ≠ t2)
    (huniq : ∀ q ∈ db.products, q.id = p.id → q.merchant_id = t1) :
    (∀ c s, p ∉ get_products db t2 c s) ∧
      get_product db t2 p.id = .error .notFound := by
  constructor
  · intro c s hpin
    have hpred := (List.mem_filter.mp hpin).2
    have h2 : p.merchant_id = t2 := by
      have := Bool.and_eq_true_iff.mp (Bool.and_eq_true_iff.mp hpred).1
      exact beq_iff_eq.mp this.1
    exact hne (hown ▸ h2 ▸ rfl)
  · have hnone : db.products.find?
        (fun q => q.id == p.id && q.merchant_id == t2) = none := by
      rw [List.find?_eq_none]
      intro q hq hmatch
      have h1 : q.id = p.id := beq_iff_eq.mp (Bool.and_eq_true_iff.mp hmatch).1
      have h2 : q.merchant_id = t2 :=
        beq_iff_eq.mp (Bool.and_eq_true_iff.mp hmatch).2
      exact hne ((huniq q hq h1) ▸ h2 ▸ rfl)
    simp [get_product, findProduct, hnone]

/-- C1 witness: in the two-tenant catalog, tenant t2 does not see
tenant t1's product p1 and its point lookup of p1 answers NotFound. -/
theorem C1_tenant_isolation_witness :
    prodSample ∉ get_products dbTwoTenants "t2" none none ∧
      get_product dbTwoTenants "t2" prodSample.id = .error .notFound := by
  have h := C1_tenant_isolation dbTwoTenants "t1" "t2" prodSample rfl
    (by decide) (by decide)
  exact ⟨h.1 none none, h.2⟩

/-- C9: a registration whose email some stored merchant already owns is
rejected as a duplicate and leaves the stored state — merchants and
products — unchanged. -/
theorem C9_duplicate_email (db : DB) (reg : MerchantRegistration)
    (hashPw : String → String)
    (geocode : MerchantLocation → MerchantLocation)
    (newId : String) (now : ℕ) (m : Merchant)
    (hm : m ∈ db.merchants) (he : m.email = reg.email) :
    (register_merchant db reg hashPw geocode newId now).1 =
        .error .duplicate ∧
      (register_merchant db reg hashPw geocode newId now).2 = db := by
  have hany : db.merchants.any (fun x => x.email == reg.email) = true :=
    List.any_eq_true.mpr ⟨m, hm, by simp [he]⟩
  simp [register_merchant, hany]

/-- C9 witness: re-registering merchant1@test.com against the state that
already holds `merchantA` is rejected and the state is returned intact. -/
theorem C9_duplicate_email_witness :
    (register_merchant dbWithMerchant regDup id id "t9" 7).1 =
        .error .duplicate ∧
      (register_merchant dbWithMerchant regDup id id "t9" 7).2 =
        dbWithMerchant :=
  C9_duplicate_email dbWithMerchant regDup id id "t9" 7 merchantA
    (by decide) rfl

/-- C5: an alert row is produced exactly for the tenant's products with
stock_quantity at or below their own low_stock_threshold, carrying the
product's id, name, stock and threshold, and the dashboard's low-stock
count equals the length of the alert list on the same state. -/
theorem C5_low_stock_alerts (db : DB) (mid : String) :
    (get_dashboard_stats db mid).low_stock_alerts =
        (get_low_stock_alerts db mid).length ∧
      ∀ a : StockAlert, a ∈ get_low_stock_alerts db mid ↔
        ∃ p, p ∈ db.products ∧ p.merchant_id = mid ∧
          p.stock_quantity ≤ p.low_stock_threshold ∧
          a = { product_id := p.id, name := p.name,
                current_stock := p.stock_quantity,
                threshold := p.low_stock_threshold } := by
  constructor
  · simp [get_dashboard_stats, get_low_stock_alerts]
  · intro a
    simp only [get_low_stock_alerts, productsOf, List.mem_map,
      List.mem_filter, lowStock, decide_eq_true_eq, beq_iff_eq]
    constructor
    · rintro ⟨p, ⟨⟨hmem, hmid⟩, hls⟩, rfl⟩
      exact ⟨p, hmem, hmid, hls, rfl⟩
    · rintro ⟨p, hmem, hmid, hls, rfl⟩
      exact ⟨p, ⟨⟨hmem, hmid⟩, hls⟩, rfl⟩

/-- C5 witness: on the two-tenant catalog, tenant t1's dashboard count
equals its alert-list length, and the alert for p1 is present because p1
is low on stock. -/
theorem C5_low_stock_alerts_witness :
    (get_dashboard_stats dbTwoTenants "t1").low_stock_alerts =
        (get_low_stock_alerts dbTwoTenants "t1").length ∧
      ({ product_id := "p1", name := "Pain de campagne",
         current_stock := 5, threshold := 10 } : StockAlert) ∈
        get_low_stock_alerts dbTwoTenants "t1" := by
  refine ⟨(C5_low_stock_alerts dbTwoTenants "t1").1, ?_⟩
  exact ((C5_low_stock_alerts dbTwoTenants "t1").2 _).mpr
    ⟨prodSample, by decide, rfl, by decide, rfl⟩

/-- C7: the dashboard totals are the sums over the tenant's products —
price times stock for the stock value, cost_price times stock with unset
cost_price contributing 0 (while the product still counts in
total_products) for the cost value, profit their difference — and on a
tenant with no products all of total_products, total_stock_value and the
category breakdown are empty/zero. -/
theorem C7_dashboard_totals (db : DB) (mid : String) :
    (get_dashboard_stats db mid).total_products =
        (productsOf db mid).length ∧
    (get_dashboard_stats db mid).total_stock_value =
        roundTo2 (stockValue (productsOf db mid)) ∧
    (get_dashboard_stats db mid).total_cost_value =
        roundTo2 (costValue (productsOf db mid)) ∧
    (get_dashboard_stats db mid).estimated_profit =
        roundTo2 (stockValue (productsOf db mid) -
          costValue (productsOf db mid)) ∧
    (productsOf db mid = [] →
      (get_dashboard_stats db mid).total_products = 0 ∧
      (get_dashboard_stats db mid).total_stock_value = 0 ∧
      (get_dashboard_stats db mid).category_breakdown = []) := by
  refine ⟨rfl, rfl, rfl, rfl, fun h => ?_⟩
  refine ⟨by simp [get_dashboard_stats, h], ?_, ?_⟩
  · simp [get_dashboard_stats, h, stockValue, roundTo2_zero]
  · simp [get_dashboard_stats, h, categoryBreakdown, dedupKeepFirst]

/-- C7 witness: a tenant with no products gets an all-zero dashboard
with an empty category breakdown. -/
theorem C7_dashboard_totals_witness :
    (get_dashboard_stats dbEmpty "t1").total_products = 0 ∧
    (get_dashboard_stats dbEmpty "t1").total_stock_value = 0 ∧
    (get_dashboard_stats dbEmpty "t1").category_breakdown = [] :=
  (C7_dashboard_totals dbEmpty "t1").2.2.2.2 rfl

/-- C6 counterexample: on a catalog holding one product of price 1.234
and stock 1, the category-breakdown value returned by the dashboard is
the raw 1.234, which is not a 2-decimal-place quantity — rounding it
would give 1.23 — so the breakdown values are not rounded at the output
boundary as the claim asserts. -/
theorem C6_breakdown_not_rounded :
    (get_dashboard_stats dbOddValue "t1").category_breakdown =
        [("AUTRE", 1, 617 / 500)] ∧
      roundTo2 (617 / 500) ≠ 617 / 500 := by
  constructor
  · show categoryBreakdown (productsOf dbOddValue "t1") = _
    have hl : productsOf dbOddValue "t1" = [prodOddValue] := rfl
    rw [hl]
    show [("AUTRE", 1, stockValue [prodOddValue])] = _
    norm_num [stockValue, prodOddValue]
  · have h : Int.fdiv 617 5 = 123 := by decide
    norm_num [roundTo2, roundHalfEven, ratFloor, h]

/-- C6 amended: the three monetary totals — total_stock_value,
total_cost_value, estimated_profit — are rounded to 2 decimal places at
the output boundary, with the rounding applied to the full-precision
internal sums (in particular the profit is the rounding of the exact
difference), while every value figure of the category breakdown is the
raw, unrounded per-category sum. -/
theorem C6_rounding_boundary (db : DB) (mid : String) :
    (get_dashboard_stats db mid).total_stock_value =
        roundTo2 (stockValue (productsOf db mid)) ∧
    (get_dashboard_stats db mid).total_cost_value =
        roundTo2 (costValue (productsOf db mid)) ∧
    (get_dashboard_stats db mid).estimated_profit =
        roundTo2 (stockValue (productsOf db mid) -
          costValue (productsOf db mid)) ∧
    ∀ e ∈ (get_dashboard_stats db mid).category_breakdown,
      e.2.2 = stockValue ((productsOf db mid).filter
        (fun p => p.category == e.1)) := by
  refine ⟨rfl, rfl, rfl, fun e he => ?_⟩
  simp only [get_dashboard_stats, categoryBreakdown, List.mem_map] at he
  obtain ⟨c, _, rfl⟩ := he
  rfl

/-- C6 amended witness: on the one-product catalog the total stock value
is the rounding of the raw sum and the unique breakdown value is the raw
per-category sum. -/
theorem C6_rounding_boundary_witness :
    (get_dashboard_stats dbOddValue "t1").total_stock_value =
        roundTo2 (stockValue (productsOf dbOddValue "t1")) ∧
      (("AUTRE", 1, (617 : ℚ) / 500)).2.2 =
        stockValue ((productsOf dbOddValue "t1").filter
          (fun p => p.category == ("AUTRE", 1, (617 : ℚ) / 500).1)) := by
  refine ⟨(C6_rounding_boundary dbOddValue "t1").1, ?_⟩
  refine (C6_rounding_boundary dbOddValue "t1").2.2.2 _ ?_
  show _ ∈ categoryBreakdown (productsOf dbOddValue "t1")
  have hl : productsOf dbOddValue "t1" = [prodOddValue] := rfl
  rw [hl]
  show _ ∈ [("AUTRE", 1, stockValue [prodOddValue])]
  norm_num [stockValue, prodOddValue]

/-- C2 counterexample: creating a product with cost_price = 0 and
price = 10 — cost_price set and price > cost_price, for which the claim
asserts a stored margin of 100.0 — stores no margin at all, because the
handler's truthiness test `if product.cost_price` treats a zero
cost_price like an unset one. -/
theorem C2_cost_zero_no_margin :
    prodCostZero.cost_price = some 0 ∧
    prodCostZero.price = 10 ∧
    create_product dbEmpty "t1" prodCostZero =
      .ok (createdDoc "t1" prodCostZero,
        DB.mk [] [createdDoc "t1" prodCostZero]) ∧
    (createdDoc "t1" prodCostZero).margin = none ∧
    (createdDoc "t1" prodCostZero).margin ≠ some 100 := by
  have hm : (createdDoc "t1" prodCostZero).margin = none := by
    norm_num [createdDoc, createMargin, prodCostZero]
  exact ⟨rfl, rfl, rfl, hm, by rw [hm]; simp⟩

/-- C2 amended: for a create input with nonzero price (a zero price
together with a truthy negative cost_price makes the original raise
ZeroDivisionError instead of storing anything), the stored record
carries a margin iff cost_price is set, nonzero, and below price, and
the stored margin is then round((price − cost_price) / price × 100, 2);
in particular cost_price = 0 yields no margin even when price > 0, and
cost_price ≥ price yields no margin. -/
theorem C2_margin_on_create (db : DB) (mid : String) (inp : Product)
    (hp : inp.price ≠ 0) :
    create_product db mid inp =
        .ok (createdDoc mid inp,
          { db with products := db.products ++ [createdDoc mid inp] }) ∧
    ((createdDoc mid inp).margin ≠ none ↔
        ∃ c, inp.cost_price = some c ∧ c ≠ 0 ∧ c < inp.price) ∧
      ∀ c, inp.cost_price = some c → c ≠ 0 → c < inp.price →
        (createdDoc mid inp).margin =
          some (roundTo2 ((inp.price - c) / inp.price * 100)) := by
  have hmargin : (createdDoc mid inp).margin =
      createMargin inp.price inp.cost_price := rfl
  have hg : marginDivZero inp.price inp.cost_price = false := by
    cases hc : inp.cost_price with
    | none => rfl
    | some c =>
        simp only [marginDivZero, decide_eq_false_iff_not]
        rintro ⟨-, -, hp0⟩
        exact hp hp0
  refine ⟨by simp [create_product, hg], ?_, ?_⟩
  · rw [hmargin]
    cases hc : inp.cost_price with
    | none => simp [createMargin]
    | some c =>
        by_cases hcond : c ≠ 0 ∧ c < inp.price
        · rw [createMargin_pos inp.price c hp hcond.1 hcond.2]
          simp only [ne_eq, reduceCtorEq, not_false_eq_true, true_iff]
          exact ⟨c, rfl, hcond⟩
        · have hnone : createMargin inp.price (some c) = none := by
            simp only [createMargin, if_neg hcond]
          rw [hnone]
          simp only [ne_eq, not_true_eq_false, false_iff, not_exists]
          rintro x ⟨hx, hx0, hxlt⟩
          have hcx := Option.some_inj.mp hx
          subst hcx
          exact hcond ⟨hx0, hxlt⟩
  · intro c hc hc0 hlt
    rw [hmargin, hc]
    exact createMargin_pos inp.price c hp hc0 hlt

/-- C2 amended witness: creating the sample product (price 10, cost 2)
stores the margin round((10 − 2)/10 × 100, 2) = 80. -/
theorem C2_margin_on_create_witness :
    (createdDoc "t1" prodSample).margin =
        some (roundTo2 ((prodSample.price - 2) / prodSample.price * 100)) ∧
      (10 : ℚ) ≠ 0 :=
  ⟨(C2_margin_on_create dbEmpty "t1" prodSample (by norm_num [prodSample])).2.2
      2 rfl (by norm_num) (by norm_num [prodSample]),
    by norm_num⟩

/-- C4 counterexample: a create input with empty name, negative price,
negative stock, negative threshold and a category outside the taxonomy —
invalid on every rule the claim lists — is accepted by the create
operation and stored verbatim: nothing in the handler validates it, so
no ValidationError is raised and the insert happens. -/
theorem C4_invalid_input_stored :
    ¬ specValid badProduct ∧
    create_product dbEmpty "t1" badProduct =
      .ok (createdDoc "t1" badProduct,
        DB.mk [] [createdDoc "t1" badProduct]) ∧
    (createdDoc "t1" badProduct).name = "" ∧
    (createdDoc "t1" badProduct).price = -1 ∧
    (createdDoc "t1" badProduct).stock_quantity = -5 ∧
    (createdDoc "t1" badProduct).category = "PAS_UNE_CATEGORIE" :=
  ⟨fun h => h.1 rfl, rfl, rfl, rfl, rfl, rfl⟩

/-- C4 amended: the create operation performs no value validation: it
never fails with a ValidationError, and whenever the call stores a
product — every call except the unrelated ZeroDivisionError 500 at
price = 0 with a truthy cost_price below it, which stores nothing but is
no validation rejection either — an input violating the claim's rules
(empty name, non-positive price, negative stock_quantity, negative
low_stock_threshold, category outside the taxonomy, subcategory outside
its category's non-empty registered set) is inserted with those field
values stored unchanged. Only the HTTP framework's type checking stands
between the request and the store. -/
theorem C4_no_validation (db : DB) (mid : String) (inp : Product)
    (_hinvalid : ¬ specValid inp) :
    create_product db mid inp ≠ .error .validation ∧
      ∀ p db', create_product db mid inp = .ok (p, db') →
        db'.products = db.products ++ [p] ∧
        p.name = inp.name ∧
        p.price = inp.price ∧
        p.stock_quantity = inp.stock_quantity ∧
        p.low_stock_threshold = inp.low_stock_threshold ∧
        p.category = inp.category ∧
        p.subcategory = inp.subcategory := by
  cases hg : marginDivZero inp.price inp.cost_price with
  | true =>
      refine ⟨by simp [create_product, hg], fun p db' hok => ?_⟩
      simp [create_product, hg] at hok
  | false =>
      refine ⟨by simp [create_product, hg], fun p db' hok => ?_⟩
      simp only [create_product, hg, Bool.false_eq_true, if_false,
        Except.ok.injEq, Prod.mk.injEq] at hok
      obtain ⟨h1, h2⟩ := hok
      subst h1
      exact ⟨congrArg DB.products h2.symm, rfl, rfl, rfl, rfl, rfl, rfl⟩

/-- C4 amended witness: the all-rules-violating input `badProduct` does
not trigger a ValidationError; it is inserted and its invalid field
values are stored unchanged. -/
theorem C4_no_validation_witness :
    create_product dbEmpty "t1" badProduct ≠ .error .validation ∧
      (DB.mk [] [createdDoc "t1" badProduct]).products =
          dbEmpty.products ++ [createdDoc "t1" badProduct] ∧
        (createdDoc "t1" badProduct).name = badProduct.name :=
  ⟨(C4_no_validation dbEmpty "t1" badProduct (fun h => h.1 rfl)).1,
    ((C4_no_validation dbEmpty "t1" badProduct (fun h => h.1 rfl)).2
        (createdDoc "t1" badProduct)
        (DB.mk [] [createdDoc "t1" badProduct]) rfl).1,
    ((C4_no_validation dbEmpty "t1" badProduct (fun h => h.1 rfl)).2
        (createdDoc "t1" badProduct)
        (DB.mk [] [createdDoc "t1" badProduct]) rfl).2.1⟩

/-- C3: evaluation of the code at the failing input. The stored document
has price 10, cost_price 5 and the margin 50.0 computed from them;
updating the price to 4 — at which the effective values yield no
positive margin — succeeds but leaves the stale margin 50.0 in the
stored document, because the handler only ever writes the margin key
into `$set` and never removes it. The claim (and spec invariant) demands
the margin be absent after this update. -/
theorem C3_stale_margin_persists :
    (update_product dbStale "t1" "p1" updPrice4 100).toOption.map
        (fun r => (r.1.price, r.1.cost_price, r.1.margin)) =
      some (4, some 5, some 50) := by
  have happ : applyUpdate prodStale updPrice4 100 =
      { prodStale with price := 4, updated_at := 100 } := by
    norm_num [applyUpdate, updPrice4, setOpt, updateMargin, prodStale]
  have hfind : findProduct dbStale "t1" "p1" = some prodStale := rfl
  have hne : applyUpdate prodStale updPrice4 100 ≠ prodStale := by
    rw [happ]
    intro h
    have := congrArg Product.updated_at h
    simp [prodStale] at this
  simp only [update_product, hfind, if_neg hne, Except.toOption,
    Option.map_some]
  rw [happ]
  simp [prodStale]

/-- C8: on a margin-consistent stored document (every document written by
create or update is such, see `create_marginConsistent` and
`applyUpdate_marginConsistent`), an update with an empty partial
succeeds — it is not a failure — and changes only updated_at; and an
update providing only stock_quantity changes only stock_quantity and
updated_at, leaving price, cost_price and margin untouched. The `now`
instant must differ from the stored updated_at, matching the original,
where `datetime.now()` at update time exceeds the stored timestamp (at
equal timestamps Mongo reports modified_count 0 and the handler answers
404). -/
theorem C8_update_frame (db : DB) (mid pid : String) (p : Product)
    (now : ℕ) (hfind : findProduct db mid pid = some p)
    (hcons : marginConsistent p) (hnow : now ≠ p.updated_at) :
    (update_product db mid pid {} now).toOption.map Prod.fst =
        some { p with updated_at := now } ∧
      ∀ s : ℤ,
        (update_product db mid pid { stock_quantity := some s } now
            ).toOption.map Prod.fst =
          some { p with stock_quantity := s, updated_at := now } := by
  constructor
  · have happ := applyUpdate_empty p now hcons
    have hne : applyUpdate p {} now ≠ p := by
      rw [happ]
      intro h
      exact hnow (congrArg Product.updated_at h)
    simp only [update_product, hfind, if_neg hne, Except.toOption,
      Option.map_some]
    rw [happ]
    rfl
  · intro s
    have happ := applyUpdate_stock p now s hcons
    have hne : applyUpdate p { stock_quantity := some s } now ≠ p := by
      rw [happ]
      intro h
      exact hnow (congrArg Product.updated_at h)
    simp only [update_product, hfind, if_neg hne, Except.toOption,
      Option.map_some]
    rw [happ]
    rfl

/-- C8 witness: updating the cost-less stored product with an empty
partial at instant 5 only advances updated_at, and updating only
stock_quantity to 3 leaves everything else as stored. -/
theorem C8_update_frame_witness :
    (update_product dbNoCost "t1" "p1" {} 5).toOption.map Prod.fst =
        some { prodNoCost with updated_at := 5 } ∧
      (update_product dbNoCost "t1" "p1" { stock_quantity := some 3 } 5
          ).toOption.map Prod.fst =
        some { prodNoCost with stock_quantity := 3, updated_at := 5 } := by
  have h := C8_update_frame dbNoCost "t1" "p1" prodNoCost 5 rfl
    (fun c hc => Option.noConfusion hc) (by decide)
  exact ⟨h.1, h.2 3⟩
